import Mathlib

/-!
Verification of the Excel dashboard manipulation core (`src/main.py`).

The embedding models:
* Python scalar cell values as `PyVal` (strings and integers);
* an openpyxl worksheet as an association list from 1-based
  `(row, column)` coordinates to values (`Worksheet`), where a missing
  entry models an empty cell (openpyxl returns `None`);
* `str.replace(old, '')` as `pyReplaceDel` (leftmost, non-overlapping,
  scanning resumes after each removed occurrence);
* the `ExcelProcessor` methods `_clean_string`, `_get_cell_value_safely`,
  `_get_subject_number`, `_process_samples`, `process_choice` and
  `process_same_choice` as pure functions.  The `float` scores of
  `process_same_choice` (`1.0`, `0.5`, `0.0`) are exactly representable,
  so they are modelled in `ℚ`.
-/

/-- A Python scalar value held in a worksheet cell. -/
inductive PyVal where
  | str : String → PyVal
  | int : Int → PyVal
deriving DecidableEq

/-- Python `str()` on a scalar value. -/
def pyStr : PyVal → String
  | PyVal.str s => s
  | PyVal.int n => toString n

/-- Python truthiness of a scalar value (`if subject_cell:`). -/
def pyTruthy : PyVal → Bool
  | PyVal.str s => !s.isEmpty
  | PyVal.int n => n != 0

/-- A loaded worksheet: cells addressed by 1-based (row, column). -/
structure Worksheet where
  cells : List ((Nat × Nat) × PyVal)
deriving DecidableEq

/-- `worksheet.cell(row, col).value`: `none` models an empty / absent cell. -/
def Worksheet.value? (ws : Worksheet) (row col : Nat) : Option PyVal :=
  (ws.cells.find? (fun c => c.1.1 == row && c.1.2 == col)).map (fun c => c.2)

/-- The fallible raw access: openpyxl raises on out-of-range coordinates
(row or column below 1); otherwise it yields the optional value. -/
def Worksheet.cellValue (ws : Worksheet) (row col : Nat) :
    Except String (Option PyVal) :=
  if row < 1 ∨ col < 1 then
    Except.error "Row or column values must be at least 1"
  else
    Except.ok (ws.value? row col)

/-- A worksheet with no populated cell. -/
def emptyWorksheet : Worksheet := ⟨[]⟩

/-- Does `pat` occur as a contiguous sublist of the argument? -/
def occursIn (pat : List Char) : List Char → Bool
  | [] => pat.isEmpty
  | c :: rest => pat.isPrefixOf (c :: rest) || occursIn pat rest

/-- One left-to-right pass deleting every non-overlapping occurrence of
`pat`, resuming after each deleted occurrence, exactly as Python's
`str.replace(pat, '')` does.  `fuel` only serves termination; it is
always called with the length of the subject list, which suffices. -/
def removeOccsF (pat : List Char) : Nat → List Char → List Char
  | _, [] => []
  | 0, s => s
  | fuel + 1, c :: rest =>
    if pat.isPrefixOf (c :: rest) && !pat.isEmpty then
      removeOccsF pat fuel (rest.drop (pat.length - 1))
    else
      c :: removeOccsF pat fuel rest

/-- Python `s.replace(pat, '')`. -/
def pyReplaceDel (pat s : String) : String :=
  ⟨removeOccsF pat.data s.data.length s.data⟩

/-- Does `pat` occur in the string `s`? -/
def occursStr (pat s : String) : Bool := occursIn pat.data s.data

/-- The three deletions of `ExcelProcessor._clean_string`, in source
order: first `".PICT @ :Pictures:"`, then `"["`, then `"]"`. -/
def cleanString (s : String) : String :=
  pyReplaceDel "]" (pyReplaceDel "[" (pyReplaceDel ".PICT @ :Pictures:" s))

/-- `ExcelProcessor._clean_string`: `None` becomes `''`, any other value
is converted with `str()` and the three patterns are deleted. -/
def clean_string (value : Option PyVal) : String :=
  match value with
  | none => ""
  | some v => cleanString (pyStr v)

/-- `ExcelProcessor._get_cell_value_safely`: total; every failure path
degrades to the empty string. -/
def get_cell_value_safely (ws : Worksheet) (row col : Nat) : String :=
  match ws.cellValue row col with
  | Except.error _ => ""
  | Except.ok none => ""
  | Except.ok (some v) => clean_string (some v)

-- When `pat` never occurs in the subject, the deleting pass is the
-- identity, for every amount of fuel.
theorem removeOccsF_of_not_occurs (pat : List Char) :
    ∀ fuel s, occursIn pat s = false → removeOccsF pat fuel s = s := by
  intro fuel
  induction fuel with
  | zero =>
    intro s _
    cases s with
    | nil => rfl
    | cons c rest => rfl
  | succ n ih =>
    intro s h
    cases s with
    | nil => rfl
    | cons c rest =>
      have h' : pat.isPrefixOf (c :: rest) = false ∧ occursIn pat rest = false := by
        simpa [occursIn, Bool.or_eq_false_iff] using h
      simp [removeOccsF, h'.1, ih rest h'.2]

theorem pyReplaceDel_of_not_occurs (pat s : String)
    (h : occursStr pat s = false) : pyReplaceDel pat s = s := by
  unfold pyReplaceDel
  rw [removeOccsF_of_not_occurs pat.data s.data.length s.data h]

theorem cleanString_of_clean (s : String)
    (h1 : occursStr ".PICT @ :Pictures:" s = false)
    (h2 : occursStr "[" s = false)
    (h3 : occursStr "]" s = false) :
    cleanString s = s := by
  unfold cleanString
  rw [pyReplaceDel_of_not_occurs _ _ h1, pyReplaceDel_of_not_occurs _ _ h2,
    pyReplaceDel_of_not_occurs _ _ h3]

/-- C6 (counterexample): string cleaning is not idempotent.  On
`".PI[CT @ :Pictures:"` the bracket removal manufactures a fresh
occurrence of the artifact marker, so a second cleaning pass removes
more than the first. -/
theorem c6_counterexample :
    cleanString (cleanString ".PI[CT @ :Pictures:") ≠
      cleanString ".PI[CT @ :Pictures:" := by
  decide

/-- C6 (amended): cleaning a string containing none of the three removal
patterns returns it unchanged (so cleaning is a no-op on such strings),
and cleaning `"foo[1].PICT @ :Pictures:"` yields `"foo1"`; full
idempotence fails (see the counterexample). -/
theorem c6_clean_passthrough :
    (∀ s : String,
      occursStr ".PICT @ :Pictures:" s = false →
      occursStr "[" s = false →
      occursStr "]" s = false →
      cleanString s = s) ∧
    cleanString "foo[1].PICT @ :Pictures:" = "foo1" := by
  constructor
  · intro s h1 h2 h3
    exact cleanString_of_clean s h1 h2 h3
  · decide

/-- Witness for C6: the pass-through theorem applied to the concrete
already-clean string `"hello"`. -/
theorem c6_clean_passthrough_witness :
    occursStr ".PICT @ :Pictures:" "hello" = false ∧
    occursStr "[" "hello" = false ∧
    occursStr "]" "hello" = false ∧
    cleanString "hello" = "hello" :=
  ⟨by decide, by decide, by decide,
    c6_clean_passthrough.1 "hello" (by decide) (by decide) (by decide)⟩

/-- `start_row` of `ExcelProcessor._process_samples`:
`(sample_num - 2) * 9 + 1 if sample_num > 2 else 1`. -/
def start_row (sample_num : Nat) : Nat :=
  if 2 < sample_num then (sample_num - 2) * 9 + 1 else 1

/-- C4: the first sample (index 2) starts at raw row 1; every later
sample `s` starts at raw row `(s - 2) * 9 + 1`; at the boundary `s = 3`
this is row 10. -/
theorem c4_start_row :
    start_row 2 = 1 ∧
    (∀ s : Nat, 2 < s → start_row s = (s - 2) * 9 + 1) ∧
    start_row 3 = 10 := by
  refine ⟨rfl, ?_, rfl⟩
  intro s hs
  simp [start_row, hs]

/-- Witness for C4: the general branch evaluated at sample index 7. -/
theorem c4_start_row_witness :
    2 < 7 ∧ start_row 7 = (7 - 2) * 9 + 1 :=
  ⟨by decide, c4_start_row.2.1 7 (by decide)⟩

/-- An ASCII whitespace character, as stripped by Python `int()`. -/
def isPySpace (c : Char) : Bool :=
  c == ' ' || c == '\t' || c == '\n' || c == '\r' || c.toNat == 11 || c.toNat == 12

/-- A decimal digit. -/
def isDigitCh (c : Char) : Bool := 48 ≤ c.toNat && c.toNat ≤ 57

/-- The numeric value of a list of decimal digits. -/
def digitsVal (ds : List Char) : Nat :=
  ds.foldl (fun a c => a * 10 + (c.toNat - 48)) 0

/-- Python `int(s)` on a string: optional surrounding whitespace, an
optional sign, then one or more decimal digits; `none` where Python
raises `ValueError`.  (Digit-group underscores are not modelled; the
repository never produces them.) -/
def pyInt? (s : String) : Option Int :=
  match ((s.data.dropWhile isPySpace).reverse.dropWhile isPySpace).reverse with
  | [] => none
  | '+' :: ds =>
    if !ds.isEmpty && ds.all isDigitCh then some (Int.ofNat (digitsVal ds))
    else none
  | '-' :: ds =>
    if !ds.isEmpty && ds.all isDigitCh then some (-Int.ofNat (digitsVal ds))
    else none
  | ds =>
    if ds.all isDigitCh then some (Int.ofNat (digitsVal ds))
    else none

/-- Outcome of `ExcelProcessor._get_subject_number`: the returned value
(`none` models Python's implicit `return None` fall-through) and whether
the `st.warning` call fired. -/
structure SubjectResult where
  value : Option Int
  warned : Bool
deriving DecidableEq

/-- `ExcelProcessor._get_subject_number`.  Cell `A12` is row 12,
column 1.  A falsy cell (absent, `None`, `''`, `0`) skips the `if`
body and falls through, returning `None` with no warning; a truthy
string has the prefix `"Subject Number: "` deleted and is parsed with
`int()`; a raised exception (`ValueError` from `int()`, or
`AttributeError` from calling `.replace` on a non-string) is caught,
warns, and returns 0. -/
def get_subject_number (ws : Worksheet) : SubjectResult :=
  match ws.value? 12 1 with
  | none => ⟨none, false⟩
  | some v =>
    if pyTruthy v then
      match v with
      | PyVal.str s =>
        match pyInt? (pyReplaceDel "Subject Number: " s) with
        | some n => ⟨some n, false⟩
        | none => ⟨some 0, true⟩
      | PyVal.int _ => ⟨some 0, true⟩
    else ⟨none, false⟩

/-- C3 (code bug): on a missing or empty subject-number cell the
accessor does not yield the default 0 and does not warn — the truthiness
guard makes the function fall through and return Python `None`
(violating its own `-> int` annotation, and never reaching the
`except` handler whose message is precisely about this case).  The
other parse failures do behave as claimed: a non-numeric suffix and a
non-string cell both warn and default to 0, and a well-formed cell
parses. -/
theorem c3_subject_number_missing_cell :
    get_subject_number emptyWorksheet = ⟨none, false⟩ ∧
    get_subject_number ⟨[((12, 1), PyVal.str "")]⟩ = ⟨none, false⟩ ∧
    (⟨none, false⟩ : SubjectResult) ≠ ⟨some 0, true⟩ ∧
    get_subject_number ⟨[((12, 1), PyVal.str "Subject Number: abc")]⟩ =
      ⟨some 0, true⟩ ∧
    get_subject_number ⟨[((12, 1), PyVal.int 7)]⟩ = ⟨some 0, true⟩ ∧
    get_subject_number ⟨[((12, 1), PyVal.str "Subject Number: 42")]⟩ =
      ⟨some 42, false⟩ := by
  refine ⟨rfl, rfl, by decide, ?_, rfl, ?_⟩ <;> decide

/-- C5: the safe cell read is total by construction (its result type is
`String`); every access error and every absent or `None` value yields
`""`; an empty-string value also yields `""`; and a present value is
returned as its cleaned string coercion. -/
theorem c5_cell_read_total (ws : Worksheet) (row col : Nat) :
    (∀ e, ws.cellValue row col = Except.error e →
      get_cell_value_safely ws row col = "") ∧
    (ws.cellValue row col = Except.ok none →
      get_cell_value_safely ws row col = "") ∧
    (∀ v, ws.cellValue row col = Except.ok (some v) →
      get_cell_value_safely ws row col = cleanString (pyStr v)) ∧
    (ws.cellValue row col = Except.ok (some (PyVal.str "")) →
      get_cell_value_safely ws row col = "") := by
  refine ⟨?_, ?_, ?_, ?_⟩
  · intro e he
    simp [get_cell_value_safely, he]
  · intro h
    simp [get_cell_value_safely, h]
  · intro v h
    simp [get_cell_value_safely, h, clean_string]
  · intro h
    simp [get_cell_value_safely, h, clean_string, pyStr]
    decide

/-- Witness for C5: a one-cell worksheet holding `"a[b]"` at (1,1); the
safe read returns the cleaned coercion `"ab"`, and out-of-range and
absent reads return `""`. -/
theorem c5_cell_read_total_witness :
    Worksheet.cellValue ⟨[((1, 1), PyVal.str "a[b]")]⟩ 1 1 =
      Except.ok (some (PyVal.str "a[b]")) ∧
    get_cell_value_safely ⟨[((1, 1), PyVal.str "a[b]")]⟩ 1 1 =
      cleanString (pyStr (PyVal.str "a[b]")) :=
  ⟨rfl,
    (c5_cell_read_total ⟨[((1, 1), PyVal.str "a[b]")]⟩ 1 1).2.2.1
      (PyVal.str "a[b]") rfl⟩

/-- The value branch of `ExcelProcessor.process_choice` for one zipped
row of cell values (`m.value`, `l.value`, `k.value`). -/
def choice_val (m l k : Option PyVal) : Option PyVal :=
  if m = some (PyVal.str "j") then l
  else if m = some (PyVal.str "f") then k
  else if m = some (PyVal.str "d") then some (PyVal.str "don\x27t know")
  else none

/-- `ExcelProcessor.process_choice`: Python's three-way `zip` truncates
to the shortest column; columns are modelled by their `.value`s. -/
def process_choice (m_column l_column k_column : List (Option PyVal)) :
    List (Option PyVal) :=
  (m_column.zip (l_column.zip k_column)).map
    (fun x => choice_val x.1 x.2.1 x.2.2)

/-- The value branch of `ExcelProcessor.process_same_choice` for one
zipped row; the exact floats 1.0, 0.5, 0.0 are modelled in `ℚ`. -/
def same_choice_val (p j : Option PyVal) : ℚ :=
  if p = j then 1
  else if p = some (PyVal.str "don\x27t know") then 1/2
  else 0

/-- `ExcelProcessor.process_same_choice`. -/
def process_same_choice (p_column j_column : List (Option PyVal)) :
    List ℚ :=
  (p_column.zip j_column).map (fun x => same_choice_val x.1 x.2)

/-- C7: per position, choice resolution emits L's value when M is "j",
K's value when M is "f", the literal "don't know" when M is "d", and
none otherwise; on the spec's concrete columns it yields
`[a, f, don't know, none]`. -/
theorem c7_process_choice :
    (∀ (ms ls ks : List (Option PyVal)) (i : Nat)
      (h1 : i < ms.length) (h2 : i < ls.length) (h3 : i < ks.length)
      (h : i < (process_choice ms ls ks).length),
      (process_choice ms ls ks).get ⟨i, h⟩ =
        if ms.get ⟨i, h1⟩ = some (PyVal.str "j") then ls.get ⟨i, h2⟩
        else if ms.get ⟨i, h1⟩ = some (PyVal.str "f") then ks.get ⟨i, h3⟩
        else if ms.get ⟨i, h1⟩ = some (PyVal.str "d") then
          some (PyVal.str "don\x27t know")
        else none) ∧
    process_choice
      [some (PyVal.str "j"), some (PyVal.str "f"),
        some (PyVal.str "d"), some (PyVal.str "x")]
      [some (PyVal.str "a"), some (PyVal.str "b"),
        some (PyVal.str "c"), some (PyVal.str "d")]
      [some (PyVal.str "e"), some (PyVal.str "f"),
        some (PyVal.str "g"), some (PyVal.str "h")] =
      [some (PyVal.str "a"), some (PyVal.str "f"),
        some (PyVal.str "don\x27t know"), none] := by
  constructor
  · intro ms ls ks i h1 h2 h3 h
    simp [process_choice, List.get_eq_getElem, List.getElem_map,
      List.getElem_zip, choice_val]
  · decide

/-- Witness for C7: the positionwise rule applied at index 0 of
singleton columns with M = "f", where K's value is emitted. -/
theorem c7_process_choice_witness :
    (process_choice [some (PyVal.str "f")] [some (PyVal.str "a")]
        [some (PyVal.str "e")]).get ⟨0, by decide⟩ =
      if some (PyVal.str "f") = some (PyVal.str "j") then
        some (PyVal.str "a")
      else if some (PyVal.str "f") = some (PyVal.str "f") then
        some (PyVal.str "e")
      else if some (PyVal.str "f") = some (PyVal.str "d") then
        some (PyVal.str "don\x27t know")
      else none :=
  c7_process_choice.1 [some (PyVal.str "f")] [some (PyVal.str "a")]
    [some (PyVal.str "e")] 0 (by decide) (by decide) (by decide) (by decide)

-- Scoring of one zipped row: equality first, then the half-credit test.
theorem same_choice_val_spec (p j : Option PyVal) :
    (p = j → same_choice_val p j = 1) ∧
    (same_choice_val p j = 1/2 ↔
      p = some (PyVal.str "don\x27t know") ∧ p ≠ j) := by
  constructor
  · intro hpj
    simp [same_choice_val, hpj]
  · unfold same_choice_val
    by_cases hpj : p = j
    · rw [if_pos hpj]
      constructor
      · intro hbad
        exact absurd hbad (by norm_num)
      · rintro ⟨-, hne⟩
        exact absurd hpj hne
    · by_cases hdk : p = some (PyVal.str "don\x27t know")
      · rw [if_neg hpj, if_pos hdk]
        exact ⟨fun _ => ⟨hdk, hpj⟩, fun _ => rfl⟩
      · rw [if_neg hpj, if_neg hdk]
        constructor
        · intro hbad
          exact absurd hbad (by norm_num)
        · rintro ⟨hdk2, -⟩
          exact absurd hdk2 hdk

/-- C9: in same-choice scoring the equality test has precedence over the
"don't know" test: whenever P and J agree the score is 1, even when both
are "don't know"; the score is 1/2 exactly when P is "don't know" and J
differs. -/
theorem c9_same_choice_precedence :
    (∀ (ps js : List (Option PyVal)) (i : Nat)
      (h1 : i < ps.length) (h2 : i < js.length)
      (h : i < (process_same_choice ps js).length),
      (ps.get ⟨i, h1⟩ = js.get ⟨i, h2⟩ →
        (process_same_choice ps js).get ⟨i, h⟩ = 1) ∧
      ((process_same_choice ps js).get ⟨i, h⟩ = 1/2 ↔
        ps.get ⟨i, h1⟩ = some (PyVal.str "don\x27t know") ∧
          ps.get ⟨i, h1⟩ ≠ js.get ⟨i, h2⟩)) ∧
    process_same_choice [some (PyVal.str "don\x27t know")]
        [some (PyVal.str "don\x27t know")] = [1] := by
  constructor
  · intro ps js i h1 h2 h
    have hget : (process_same_choice ps js).get ⟨i, h⟩ =
        same_choice_val (ps.get ⟨i, h1⟩) (js.get ⟨i, h2⟩) := by
      simp [process_same_choice, List.get_eq_getElem, List.getElem_map,
        List.getElem_zip]
    rw [hget]
    exact same_choice_val_spec (ps.get ⟨i, h1⟩) (js.get ⟨i, h2⟩)
  · simp [process_same_choice, same_choice_val]

/-- Witness for C9: the positionwise rule applied at index 0 of
singleton columns where both P and J hold "don't know". -/
theorem c9_same_choice_precedence_witness :
    ([some (PyVal.str "don\x27t know")].get
        ⟨0, by decide⟩ : Option PyVal) =
      [some (PyVal.str "don\x27t know")].get ⟨0, by decide⟩ ∧
    (process_same_choice [some (PyVal.str "don\x27t know")]
        [some (PyVal.str "don\x27t know")]).get ⟨0, by decide⟩ = 1 :=
  ⟨rfl,
    ((c9_same_choice_precedence.1 [some (PyVal.str "don\x27t know")]
      [some (PyVal.str "don\x27t know")] 0 (by decide) (by decide)
      (by decide)).1 rfl)⟩

/-- C10: both columnwise utilities truncate to their shortest input:
the result length of choice resolution is the minimum of the three
column lengths, and that of same-choice scoring is the minimum of the
two (so equal-length inputs yield that common length). -/
theorem c10_truncation_lengths
    (ms ls ks ps js : List (Option PyVal)) :
    (process_choice ms ls ks).length =
      min ms.length (min ls.length ks.length) ∧
    (process_same_choice ps js).length = min ps.length js.length := by
  constructor
  · simp [process_choice, List.length_zip]
  · simp [process_same_choice, List.length_zip]

/-- `ExcelConfig.COLUMN_HEADERS`: the 18 declared output column
headers, in order (insertion order defines output column order). -/
def COLUMN_HEADERS : List String :=
  ["Subject Number", "trial", "null", "condition", "time",
   "Relationship", "ControlQ1 Copy 2", "ControlQ1 Copy - 2 - 2",
   "FirstMoozleProp Copy 13", "SecondMoozleProp Copy 13",
   "SecondMoozleProp2 Copy 13", "ChoiceResponse Copy 2",
   "ControlQ2 Copy 2", "ControlQ2 Copy-2 - 2", "Choice",
   "SameChoice", "BeliefType", "AgeGroup"]

/-- `ExcelConfig.START_SAMPLE`. -/
def START_SAMPLE : Nat := 2

/-- `ExcelConfig.END_SAMPLE`. -/
def END_SAMPLE : Nat := 25

/-- The 1-based position of a header in the declared header list. -/
def headerPos (name : String) : Nat := COLUMN_HEADERS.indexOf name + 1

/-- The ordered `(column, value)` writes the `mappings` dict of
`ExcelProcessor._process_samples` issues for one sample; every write of
a sample targets output row `sample_num` (`base_row = sample_num`).
The `try/except` around each `value_func()` is dead in this model since
every branch is total. -/
def sample_row_cells (ws : Worksheet) (subject_number : Option Int)
    (sample_num : Nat) : List (Nat × Option PyVal) :=
  [(1, subject_number.map PyVal.int),
   (2, some (PyVal.str (get_cell_value_safely ws (start_row sample_num) 3))),
   (4, some (PyVal.str (get_cell_value_safely ws (start_row sample_num) 6))),
   (5, some (PyVal.str (get_cell_value_safely ws (start_row sample_num + 6) 12))),
   (6, some (PyVal.str (get_cell_value_safely ws (start_row sample_num) 5))),
   (7, some (PyVal.str (get_cell_value_safely ws (start_row sample_num + 1) 14))),
   (8, some (PyVal.str (get_cell_value_safely ws (start_row sample_num + 2) 14))),
   (9, some (PyVal.str (get_cell_value_safely ws (start_row sample_num + 3) 5))),
   (10, some (PyVal.str (get_cell_value_safely ws (start_row sample_num + 4) 5))),
   (11, some (PyVal.str (get_cell_value_safely ws (start_row sample_num + 5) 5))),
   (12, some (PyVal.str (get_cell_value_safely ws (start_row sample_num + 6) 14))),
   (13, some (PyVal.str (get_cell_value_safely ws (start_row sample_num + 7) 14))),
   (14, some (PyVal.str (get_cell_value_safely ws (start_row sample_num + 8) 14)))]

/-- `ExcelProcessor._process_samples` generalized to an arbitrary
inclusive sample range (`range(startS, endS + 1)`), emitting one output
row, keyed by its row number, per sample index. -/
def process_samples_range (ws : Worksheet) (subject_number : Option Int)
    (startS endS : Nat) : List (Nat × List (Nat × Option PyVal)) :=
  (List.range' startS (endS + 1 - startS)).map
    (fun sample_num => (sample_num, sample_row_cells ws subject_number sample_num))

/-- `ExcelProcessor._process_samples` with the configured range 2..25. -/
def process_samples (ws : Worksheet) (subject_number : Option Int) :
    List (Nat × List (Nat × Option PyVal)) :=
  process_samples_range ws subject_number START_SAMPLE END_SAMPLE

/-- The field → (row offset, column) table exactly as the specification
states it, for comparison with the code's `mappings` dict. -/
def specFieldTable : List (String × Nat × Nat) :=
  [("trial", 0, 3), ("condition", 0, 6), ("Relationship", 0, 5),
   ("ControlQ1 Copy 2", 1, 14), ("ControlQ1 Copy - 2 - 2", 2, 14),
   ("FirstMoozleProp Copy 13", 3, 5), ("SecondMoozleProp Copy 13", 4, 5),
   ("SecondMoozleProp2 Copy 13", 5, 5), ("time", 6, 12),
   ("ChoiceResponse Copy 2", 6, 14), ("ControlQ2 Copy 2", 7, 14),
   ("ControlQ2 Copy-2 - 2", 8, 14)]

theorem headerPos_trial : headerPos "trial" = 2 := by decide

theorem headerPos_condition : headerPos "condition" = 4 := by decide

theorem headerPos_time : headerPos "time" = 5 := by decide

theorem headerPos_relationship : headerPos "Relationship" = 6 := by decide

theorem headerPos_cq1 : headerPos "ControlQ1 Copy 2" = 7 := by decide

theorem headerPos_cq1b : headerPos "ControlQ1 Copy - 2 - 2" = 8 := by decide

theorem headerPos_fmp : headerPos "FirstMoozleProp Copy 13" = 9 := by decide

theorem headerPos_smp : headerPos "SecondMoozleProp Copy 13" = 10 := by decide

theorem headerPos_smp2 : headerPos "SecondMoozleProp2 Copy 13" = 11 := by decide

theorem headerPos_cr : headerPos "ChoiceResponse Copy 2" = 12 := by decide

theorem headerPos_cq2 : headerPos "ControlQ2 Copy 2" = 13 := by decide

theorem headerPos_cq2b : headerPos "ControlQ2 Copy-2 - 2" = 14 := by decide

/-- C1: for every sample index in the configured range and every mapped
field of the spec's table, the row keyed by the sample index is among
the emitted rows (output row index = sample index), and that row writes
the cleaned value read from source cell
(`start_row` + the field's row offset, the field's source column) into
the output column whose position is the field's 1-based position in the
declared header list. -/
theorem c1_field_mapping (ws : Worksheet) (subject_number : Option Int)
    (s : Nat) (hlo : START_SAMPLE ≤ s) (hhi : s ≤ END_SAMPLE)
    (f : String) (off col : Nat) (hf : (f, off, col) ∈ specFieldTable) :
    (s, sample_row_cells ws subject_number s) ∈
      process_samples ws subject_number ∧
    (headerPos f,
      some (PyVal.str (get_cell_value_safely ws (start_row s + off) col))) ∈
      sample_row_cells ws subject_number s := by
  constructor
  · have hs : s ∈ List.range' START_SAMPLE (END_SAMPLE + 1 - START_SAMPLE) := by
      rw [List.mem_range']
      simp only [START_SAMPLE, END_SAMPLE] at hlo hhi ⊢
      exact ⟨s - 2, by omega, by omega⟩
    exact List.mem_map_of_mem _ hs
  · simp only [specFieldTable, List.mem_cons, List.not_mem_nil, or_false,
      Prod.mk.injEq] at hf
    rcases hf with hc|hc|hc|hc|hc|hc|hc|hc|hc|hc|hc|hc <;>
    obtain ⟨rfl, rfl, rfl⟩ := hc <;>
    simp [sample_row_cells, headerPos_trial, headerPos_condition,
      headerPos_time, headerPos_relationship, headerPos_cq1, headerPos_cq1b,
      headerPos_fmp, headerPos_smp, headerPos_smp2, headerPos_cr,
      headerPos_cq2, headerPos_cq2b]

/-- Witness for C1: sample index 2 and the field `trial`, on the empty
worksheet. -/
theorem c1_field_mapping_witness :
    START_SAMPLE ≤ 2 ∧ 2 ≤ END_SAMPLE ∧
    ("trial", 0, 3) ∈ specFieldTable ∧
    ((2, sample_row_cells emptyWorksheet none 2) ∈
        process_samples emptyWorksheet none ∧
      (headerPos "trial",
        some (PyVal.str (get_cell_value_safely emptyWorksheet
          (start_row 2 + 0) 3))) ∈
        sample_row_cells emptyWorksheet none 2) :=
  ⟨by decide, by decide, by decide,
    c1_field_mapping emptyWorksheet none 2 (by decide) (by decide)
      "trial" 0 3 (by decide)⟩

/-- C2: for any worksheet — however incomplete — and any valid sample
range, the loop emits exactly `endS - startS + 1` data rows, one per
sample index in ascending order; with the configured range this count
is `END_SAMPLE - START_SAMPLE + 1`. -/
theorem c2_row_count (ws : Worksheet) (subject_number : Option Int)
    (startS endS : Nat) (h : startS ≤ endS) :
    (process_samples_range ws subject_number startS endS).length =
      endS - startS + 1 ∧
    (∀ i (hi : i < (process_samples_range ws subject_number startS endS).length),
      ((process_samples_range ws subject_number startS endS).get ⟨i, hi⟩).1 =
        startS + i) ∧
    (process_samples ws subject_number).length =
      END_SAMPLE - START_SAMPLE + 1 := by
  refine ⟨?_, ?_, ?_⟩
  · simp only [process_samples_range, List.length_map, List.length_range']
    omega
  · intro i hi
    simp [process_samples_range, List.get_eq_getElem, List.getElem_map,
      List.getElem_range']
  · simp [process_samples, process_samples_range, START_SAMPLE, END_SAMPLE]

/-- Witness for C2: the configured range 2..25 on the empty worksheet
yields 24 data rows. -/
theorem c2_row_count_witness :
    (2 : Nat) ≤ 25 ∧
    (process_samples_range emptyWorksheet none 2 25).length = 25 - 2 + 1 :=
  ⟨by decide, (c2_row_count emptyWorksheet none 2 25 (by decide)).1⟩

/-- C8 (counterexample): a data row populates 13 distinct output
columns, not 14 as claimed — the loop writes Subject Number plus the 12
mapped fields. -/
theorem c8_counterexample :
    ((sample_row_cells emptyWorksheet none 2).map Prod.fst).dedup.length = 13 ∧
    (13 : Nat) ≠ 14 := by
  constructor
  · decide
  · decide

/-- C8 (amended): every data row written by the per-sample loop
populates exactly 13 of the 18 declared output columns — positions 1, 2
and 4..14 — and the five remaining declared headers (null, Choice,
SameChoice, BeliefType, AgeGroup, at positions 3, 15, 16, 17, 18) are
never written by the loop. -/
theorem c8_columns_written (ws : Worksheet) (subject_number : Option Int)
    (s : Nat) :
    (sample_row_cells ws subject_number s).map Prod.fst =
      [1, 2, 4, 5, 6, 7, 8, 9, 10, 11, 12, 13, 14] ∧
    ((sample_row_cells ws subject_number s).map Prod.fst).dedup.length = 13 ∧
    COLUMN_HEADERS.length = 18 ∧
    (headerPos "null" = 3 ∧ headerPos "Choice" = 15 ∧
      headerPos "SameChoice" = 16 ∧ headerPos "BeliefType" = 17 ∧
      headerPos "AgeGroup" = 18) ∧
    headerPos "null" ∉ (sample_row_cells ws subject_number s).map Prod.fst ∧
    headerPos "Choice" ∉ (sample_row_cells ws subject_number s).map Prod.fst ∧
    headerPos "SameChoice" ∉ (sample_row_cells ws subject_number s).map Prod.fst ∧
    headerPos "BeliefType" ∉ (sample_row_cells ws subject_number s).map Prod.fst ∧
    headerPos "AgeGroup" ∉ (sample_row_cells ws subject_number s).map Prod.fst := by
  have hmap : (sample_row_cells ws subject_number s).map Prod.fst =
      [1, 2, 4, 5, 6, 7, 8, 9, 10, 11, 12, 13, 14] := rfl
  refine ⟨hmap, ?_, rfl, by decide, ?_, ?_, ?_, ?_, ?_⟩ <;>
    rw [hmap] <;> decide
